import Mathlib

/-!
Shallow embedding of the Protected Attachment Resolver of
`src/app.py` (`fetch_verint_image_v3` and the per-row display logic of
`main`).  External collaborators — the HTTP stack (`requests`), the
regular-expression searches (`re.search`), base64 decoding and the PIL
image check — are modelled as an explicit environment of response
functions; everything the repository's own code computes (guards,
query-string parsing, filename filtering, data-URI stripping, control
flow, header construction) is translated directly from the source.
Machine "bytes" are modelled as `List Nat`.
-/

namespace FairTrees

/-- Raw bytes of an attachment, one `Nat` per byte. -/
abbrev Bytes := List Nat

/-- A Python value reaching `fetch_verint_image_v3`: either a string or
some non-string value (the `isinstance(wrapper_url, str)` guard only
distinguishes these two cases). -/
inductive PyValue where
  | str (s : String)
  | other
  deriving DecidableEq, Repr

/-- Python `str.lower()` restricted to the ASCII range (the filenames
the code inspects are ASCII). -/
def lowerStr (s : String) : String := ⟨s.data.map Char.toLower⟩

/-- Python `s.endswith(suffix)`. -/
def endsWithPy (s suf : String) : Bool := suf.data.isSuffixOf s.data

/-- Substring containment on character lists: the needle occurs as a
contiguous run somewhere in the haystack. -/
def containsSub (needle : List Char) : List Char → Bool
  | [] => needle.isEmpty
  | c :: rest => needle.isPrefixOf (c :: rest) || containsSub needle rest

/-- Python `needle in hay` for strings (substring containment). -/
def containsPy (hay needle : String) : Bool := containsSub needle.data hay.data

/-- Python `s.split(sep)` for a one-character separator (every separator
the source uses — `#`, `?`, `&`, `=`, `;`, `,` — is one character). -/
def splitOnChar (sep : Char) : List Char → List (List Char)
  | [] => [[]]
  | c :: rest =>
    if c = sep then [] :: splitOnChar sep rest
    else
      match splitOnChar sep rest with
      | [] => [[c]]
      | s :: ss => (c :: s) :: ss

/-- Python `str.strip()` (the whitespace characters beyond space, tab,
CR and LF that Python also strips never occur in the data the code
handles). -/
def trimPy (s : String) : String :=
  ⟨((s.data.dropWhile Char.isWhitespace).reverse.dropWhile Char.isWhitespace).reverse⟩

/- ------------------------------------------------------------------
URL parsing: `urlparse(wrapper_url).query` followed by
`parse_qs(query).get('caseid', [None])[0]` (src/app.py lines 52-55).
------------------------------------------------------------------ -/

/-- `urlsplit` first severs the fragment at the first `#`, then takes the
query as everything after the first `?` of what remains. -/
def urlQueryChars (l : List Char) : List Char :=
  let noFrag := (splitOnChar '#' l).headD l
  match splitOnChar '?' noFrag with
  | [] => []
  | _ :: rest => List.intercalate ['?'] rest

/-- Value of a single hex digit, as in `urllib.parse.unquote`. -/
def hexVal (c : Char) : Option Nat :=
  if '0' ≤ c ∧ c ≤ '9' then some (c.toNat - '0'.toNat)
  else if 'a' ≤ c ∧ c ≤ 'f' then some (c.toNat - 'a'.toNat + 10)
  else if 'A' ≤ c ∧ c ≤ 'F' then some (c.toNat - 'A'.toNat + 10)
  else none

/-- Model of `urllib.parse.unquote_plus`: `+` becomes a space and a valid
`%XX` escape becomes the character of that byte; invalid escapes are kept
literally.  (Multi-byte UTF-8 percent sequences are modelled bytewise,
which is faithful for the ASCII case identifiers the code handles.) -/
def unquotePlus : List Char → List Char
  | [] => []
  | '+' :: rest => ' ' :: unquotePlus rest
  | '%' :: a :: b :: rest =>
    match hexVal a, hexVal b with
    | some x, some y => Char.ofNat (16 * x + y) :: unquotePlus rest
    | _, _ => '%' :: unquotePlus (a :: b :: rest)
  | c :: rest => c :: unquotePlus rest

/-- Model of `urllib.parse.parse_qs` (default arguments: separator `&`,
`keep_blank_values=False`), returning the name/value pairs in order of
appearance.  Pairs without `=` and pairs with an empty value are dropped;
`split('=', 1)` splits at the first `=` only. -/
def parseQsPairs (qs : List Char) : List (String × String) :=
  (splitOnChar '&' qs).filterMap fun pair =>
    if pair.isEmpty then none
    else
      match splitOnChar '=' pair with
      | [] => none
      | [_] => none
      | name :: rest =>
        let value := List.intercalate ['='] rest
        if value.isEmpty then none
        else some (⟨unquotePlus name⟩, ⟨unquotePlus value⟩)

/-- The ordered list of values of the `caseid` query parameter. -/
def caseidValues (u : String) : List String :=
  ((parseQsPairs (urlQueryChars u.data)).filter fun p => p.1 = "caseid").map fun p => p.2

/-- `qs.get('caseid', [None])[0]` followed by the falsiness check
`if not url_case_id: return None` (src/app.py lines 54-55). -/
def getCaseId (u : String) : Option String :=
  match caseidValues u with
  | [] => none
  | v :: _ => if v = "" then none else some v

/- ------------------------------------------------------------------
Filename selection (src/app.py lines 107-119).
------------------------------------------------------------------ -/

/-- The map-thumbnail skip test of line 113:
`f_lower.endswith('m.jpg') or f_lower.endswith('_map.jpg') or
f_lower.endswith('_map.jpeg')`. -/
def isMapName (f : String) : Bool :=
  let l := lowerStr f
  endsWithPy l "m.jpg" || endsWithPy l "_map.jpg" || endsWithPy l "_map.jpeg"

/-- The image-extension test of line 115:
`f_lower.endswith(('.jpg', '.jpeg', '.png'))`. -/
def isImageExt (f : String) : Bool :=
  let l := lowerStr f
  endsWithPy l ".jpg" || endsWithPy l ".jpeg" || endsWithPy l ".png"

/-- The `for fname in raw_files` loop of lines 107-117: strip each name,
skip empties, skip map thumbnails, accept the first image filename,
silently skip everything else.  Returns `none` exactly when the loop
finishes without a `break` (line 119 then returns `None`). -/
def selectFilename : List String → Option String
  | [] => none
  | fname :: rest =>
    if trimPy fname = "" then selectFilename rest
    else if isMapName (trimPy fname) then selectFilename rest
    else if isImageExt (trimPy fname) then some (trimPy fname)
    else selectFilename rest

/-- A stripped filename the loop accepts. -/
def acceptName (f : String) : Bool := !(f = "") && !(isMapName f) && isImageExt f

/- ------------------------------------------------------------------
Data-URI marker stripping (src/app.py line 136):
`if "," in b64_data: b64_data = b64_data.split(",")[1]`.
------------------------------------------------------------------ -/

/-- Line 136: when a comma is present the payload is replaced by
`split(",")[1]`, otherwise it is left unchanged (a comma-free string
splits into a single part, so the `match` falls through). -/
def stripDataUri (l : List Char) : List Char :=
  match splitOnChar ',' l with
  | _ :: p :: _ => p
  | _ => l

def stripDataUriStr (s : String) : String := ⟨stripDataUri s.data⟩

/- ------------------------------------------------------------------
Image validation (src/app.py lines 140-146): `Image.open` / `verify`
is external (PIL) and is modelled as a boolean oracle; the code returns
the original bytes on success and `None` on any exception.
------------------------------------------------------------------ -/

def validateImage (verify : Bytes → Bool) (imgBytes : Bytes) : Option Bytes :=
  if verify imgBytes then some imgBytes else none

/- ------------------------------------------------------------------
The network environment.  `fetch_verint_image_v3` performs four network
operations (page GET, citizen handshake GET, listing POST, download
POST); each may raise (`Except.error`, caught by the code's handlers) or
return a response.  JSON bodies are modelled down to the fields the code
reads: `Option.none` at the outer level models `.json()` raising, the
inner `Option` models the nested field being absent.
------------------------------------------------------------------ -/

/-- The slice of `requests`' page response the code reads:
`status_code`, `text`, `url` (src/app.py lines 58-60, 72). -/
structure Page where
  status : Nat
  text : String
  url : String
  deriving DecidableEq, Repr

/-- The headers dict built at lines 46-49 and mutated at lines 72-74,
78 and 83. -/
structure Headers where
  userAgent : String
  referer : String
  origin : Option String
  xCsrfToken : Option String
  authorization : Option String
  contentType : Option String
  deriving DecidableEq, Repr

/-- The JSON body posted to the custom-action endpoint (lines 85-89,
122-123): `data.caseid`, `data.formref`, optionally `data.filename`;
`name` is the constant `"download_attachments"` for both calls (the
download payload is a copy of the listing payload).  The constant empty
fields `email`/`xref`/`xref1`/`xref2` carry no information and are
omitted from the model. -/
structure Payload where
  caseid : String
  formref : String
  filename : Option String
  deriving DecidableEq, Repr

/-- Listing response: `status_code` plus the result of
`r_list.json()['data']['formdata_filenames']` — outer `none` models
`.json()` raising, inner `none` models an absent field (lines 96-101). -/
structure ListResp where
  status : Nat
  filenamesField : Option (Option String)
  deriving DecidableEq, Repr

/-- Download response: `status_code` plus
`r_image.json()['data']['txt_file']`, with the same two-level `Option`
convention (lines 130-135). -/
structure DownloadResp where
  status : Nat
  txtFileField : Option (Option String)
  deriving DecidableEq, Repr

/-- One network call the resolver performs, with the headers and payload
it sent.  The trace of calls lets theorems speak about "no network
request" and about which credentials each call carried. -/
inductive NetCall where
  | pageGet (url : String)
  | handshakeGet (headers : Headers)
  | listPost (headers : Headers) (payload : Payload)
  | downloadPost (headers : Headers) (payload : Payload)
  deriving DecidableEq, Repr

/-- The external world: HTTP responses keyed by request, plus the
library primitives the code calls (`re.search` for the two token
patterns, `base64.b64decode`, PIL `Image.open`/`verify`).
`Except.error ()` models a raised exception (timeout, connection error,
malformed base64, corrupt image). -/
structure Env where
  page : String → Except Unit Page
  handshake : Headers → Except Unit (Option String)
  list : Headers → Payload → Except Unit ListResp
  download : Headers → Payload → Except Unit DownloadResp
  b64decode : String → Option Bytes
  pilVerify : Bytes → Bool
  formrefSearch : String → Option String
  csrfSearch : String → Option String

/-- The headers in force when the handshake GET is issued: base headers
of lines 46-49 with `Referer` rebound to `r_page.url`, `Origin` set, and
`X-CSRF-TOKEN` set only when a (truthy) token was found (lines 66-74). -/
def sessionHeaders (env : Env) (pg : Page) : Headers :=
  { userAgent := "Mozilla/5.0 (Windows NT 10.0; Win64; x64) AppleWebKit/537.36 (KHTML, like Gecko) Chrome/120.0.0.0 Safari/537.36"
    referer := pg.url
    origin := some "https://sanfrancisco.form.us.empro.verintcloudservices.com"
    xCsrfToken :=
      match env.csrfSearch pg.text with
      | some c => if c = "" then none else some c
      | none => none
    authorization := none
    contentType := none }

/-- The headers in force for the listing and download POSTs: the
handshake headers, plus `Authorization` captured from the handshake
response when present (lines 76-79 — exceptions there are swallowed by
the bare `except: pass`), plus `Content-Type: application/json`
(line 83). -/
def finalHeaders (env : Env) (pg : Page) : Headers :=
  match env.handshake (sessionHeaders env pg) with
  | .error _ => { sessionHeaders env pg with contentType := some "application/json" }
  | .ok none => { sessionHeaders env pg with contentType := some "application/json" }
  | .ok (some a) =>
    { sessionHeaders env pg with
        authorization := some a, contentType := some "application/json" }

/-- Steps 6-7 of the resolver (src/app.py lines 121-151): the download
POST, the two-level JSON field access, the data-URI strip, base64
decoding and image validation.  `p2` already carries the chosen
filename. -/
def downloadPhase (env : Env) (hd : Headers) (p2 : Payload) :
    Option Bytes × List NetCall :=
  match env.download hd p2 with
  | .error _ => (none, [.downloadPost hd p2])
  | .ok dr =>
    if dr.status = 200 then
      match dr.txtFileField with
      | none => (none, [.downloadPost hd p2])
      | some txt =>
        match txt with
        | none => (none, [.downloadPost hd p2])
        | some b64 =>
          match env.b64decode (stripDataUriStr b64) with
          | none => (none, [.downloadPost hd p2])
          | some imgBytes =>
            (validateImage env.pilVerify imgBytes, [.downloadPost hd p2])
    else (none, [.downloadPost hd p2])

/-- Steps 4-7 of the resolver (src/app.py lines 91-151): listing POST,
manifest split and filename selection, then the download phase.
Returns the result together with the network calls issued. -/
def listingPhase (env : Env) (hd : Headers) (p : Payload) :
    Option Bytes × List NetCall :=
  match env.list hd p with
  | .error _ => (none, [.listPost hd p])
  | .ok lr =>
    if lr.status = 200 then
      match lr.filenamesField with
      | none => (none, [.listPost hd p])
      | some fs =>
        if fs.getD "" = "" then (none, [.listPost hd p])
        else
          match selectFilename ((splitOnChar ';' (fs.getD "").data).map fun l => (⟨l⟩ : String)) with
          | none => (none, [.listPost hd p])
          | some target =>
            ((downloadPhase env hd { p with filename := some target }).1,
              .listPost hd p ::
                (downloadPhase env hd { p with filename := some target }).2)
    else (none, [.listPost hd p])

/-- Steps 2-7 for a wrapper URL that passed the guard and yielded a
case id: page fetch (line 58), status check (line 59), formref
extraction — fatal when absent (lines 62-63) —, then the handshake GET
(always attempted once the formref exists) and the listing phase. -/
def resolveCore (env : Env) (u caseId : String) : Option Bytes × List NetCall :=
  match env.page u with
  | .error _ => (none, [.pageGet u])
  | .ok pg =>
    if pg.status = 200 then
      match env.formrefSearch pg.text with
      | none => (none, [.pageGet u])
      | some formref =>
        ((listingPhase env (finalHeaders env pg)
            { caseid := caseId, formref := formref, filename := none }).1,
          .pageGet u :: .handshakeGet (sessionHeaders env pg) ::
            (listingPhase env (finalHeaders env pg)
              { caseid := caseId, formref := formref, filename := none }).2)
    else (none, [.pageGet u])

/-- `fetch_verint_image_v3` (src/app.py lines 37-151): the
`isinstance`/`"verint" in wrapper_url` guard of line 41, the case-id
extraction of lines 52-55, then the network pipeline.  Every failure
path of the source returns Python `None`, modelled as `Option.none`;
the second component is the trace of network calls issued. -/
def fetch_verint_image_v3 (env : Env) (v : PyValue) : Option Bytes × List NetCall :=
  match v with
  | .other => (none, [])
  | .str s =>
    if containsPy s "verint" then
      match getCaseId s with
      | none => (none, [])
      | some caseId => resolveCore env s caseId
    else (none, [])

/- ------------------------------------------------------------------
The per-row display logic of `main` (src/app.py lines 258-271).
------------------------------------------------------------------ -/

/-- What the gallery renders for one row: the raw `media_url` value (a
string or some non-string), or decoded image bytes. -/
inductive DisplayValue where
  | url (s : String)
  | bytes (b : Bytes)
  | other
  deriving DecidableEq, Repr

/-- Lines 262-271: start from the raw value; only when it is a string
containing `"verintcloudservices"` call the resolver, and only when the
result is truthy (non-`None` and non-empty bytes) upgrade to bytes;
otherwise keep the raw value.  Also returns the network calls made. -/
def displayImage (env : Env) (rawUrl : PyValue) : DisplayValue × List NetCall :=
  match rawUrl with
  | .other => (.other, [])
  | .str s =>
    if containsPy s "verintcloudservices" then
      match fetch_verint_image_v3 env (.str s) with
      | (some b, calls) => (if b = [] then .url s else .bytes b, calls)
      | (none, calls) => (.url s, calls)
    else (.url s, [])

/- ------------------------------------------------------------------
The resolution cache: `@st.cache_data(ttl=3600)` on line 36 memoises
`fetch_verint_image_v3` per argument for the TTL window, caching `None`
results too.  Modelled as an explicit memo table.
------------------------------------------------------------------ -/

/-- One memo entry of the `st.cache_data` model. -/
structure CacheEntry where
  key : PyValue
  result : Option Bytes
  storedAt : Nat
  deriving DecidableEq, Repr

/-- A live (non-expired) cached result for `v`, if any. -/
def cacheLookup (entries : List CacheEntry) (now ttl : Nat) (v : PyValue) :
    Option (Option Bytes) :=
  match entries.find? fun e => decide (e.key = v) with
  | some e => if now < e.storedAt + ttl then some e.result else none
  | none => none

/-- Model of calling the `st.cache_data(ttl=3600)`-wrapped resolver at
time `now`: a live entry is returned with no network activity; otherwise
the resolver runs and its outcome — including `none` — is stored. -/
def cachedFetch (env : Env) (ttl : Nat) (entries : List CacheEntry)
    (now : Nat) (v : PyValue) :
    (Option Bytes × List NetCall) × List CacheEntry :=
  match cacheLookup entries now ttl v with
  | some r => ((r, []), entries)
  | none =>
    let r := fetch_verint_image_v3 env v
    ((r.1, r.2),
     { key := v, result := r.1, storedAt := now } ::
       entries.filter fun e => !(decide (e.key = v)))

/- ------------------------------------------------------------------
Auxiliary definitions for the theorems: the specification's wording of
the Filename Selector (for comparison with the source's), a projection
on network calls, and concrete environments used as witnesses.
------------------------------------------------------------------ -/

/-- The case id carried by a network call's payload, when the call has
one. -/
def payloadCaseId : NetCall → Option String
  | .listPost _ p => some p.caseid
  | .downloadPost _ p => some p.caseid
  | _ => none

/-- Modelled from the spec: the map-thumbnail naming convention of §4.4,
"suffix indicating `_map` or a bare `m` before the extension" — the stem
(name without its final extension) ends in `_map` or in `m`. -/
def isMapNameSpec (f : String) : Bool :=
  let l := lowerStr f
  let stem : String :=
    match (splitOnChar '.' l.data).dropLast with
    | [] => l
    | parts => ⟨List.intercalate ['.'] parts⟩
  endsWithPy stem "_map" || endsWithPy stem "m"

/-- Modelled from the spec: the Filename Selector's strict pass as §4.4
words it — "walk the manifest from the end (most recent first) ...
accept the first filename with an image extension (jpg/jpeg/png) that is
not a map".  Stated only for comparison with the source's
`selectFilename`. -/
def selectFilenameSpec (files : List String) : Option String :=
  (files.reverse.map trimPy).find? fun f => isImageExt f && !(isMapNameSpec f)

/-- A successful page response used by concrete environments. -/
def pageOk : Page :=
  { status := 200, text := "PAGEHTML", url := "https://portal/page" }

/-- An environment in which every network call raises and every library
primitive fails. -/
def envFail : Env :=
  { page := fun _ => .error ()
    handshake := fun _ => .error ()
    list := fun _ _ => .error ()
    download := fun _ _ => .error ()
    b64decode := fun _ => none
    pilVerify := fun _ => false
    formrefSearch := fun _ => none
    csrfSearch := fun _ => none }

/-- An environment whose page fetch succeeds but whose page contains no
form-reference token. -/
def envNoFormref : Env :=
  { envFail with page := fun _ => .ok pageOk }

/-- An environment in which the whole pipeline succeeds: the page holds
a formref but no CSRF token, the handshake grants a credential, the
listing returns a map thumbnail followed by a photo, and the download
returns a data-URI-prefixed base64 payload that decodes to a valid
image. -/
def envOk : Env :=
  { page := fun _ => .ok pageOk
    handshake := fun _ => .ok (some "AUTH")
    list := fun _ _ => .ok { status := 200, filenamesField := some (some "loc_map.jpg;photo1.jpg") }
    download := fun _ _ => .ok { status := 200, txtFileField := some (some "image/jpeg;base64,QUJD") }
    b64decode := fun s => if s = "QUJD" then some [65, 66, 67] else none
    pilVerify := fun b => decide (b = [65, 66, 67])
    formrefSearch := fun _ => some "FR123"
    csrfSearch := fun _ => none }

/- ------------------------------------------------------------------
Helper lemmas.
------------------------------------------------------------------ -/

theorem strData_append (a b : String) : (a ++ b).data = a.data ++ b.data := by
  cases a
  cases b
  rfl

theorem splitOnChar_not_mem (sep : Char) (l : List Char) (h : sep ∉ l) :
    splitOnChar sep l = [l] := by
  induction l with
  | nil => rfl
  | cons c rest ih =>
    simp only [List.mem_cons, not_or] at h
    have hc : ¬ c = sep := fun hcs => h.1 hcs.symm
    simp [splitOnChar, hc, ih h.2]

theorem splitOnChar_append (sep : Char) (l r : List Char) (h : sep ∉ l) :
    splitOnChar sep (l ++ sep :: r) = l :: splitOnChar sep r := by
  induction l with
  | nil => simp [splitOnChar]
  | cons c rest ih =>
    simp only [List.mem_cons, not_or] at h
    have hc : ¬ c = sep := fun hcs => h.1 hcs.symm
    simp [splitOnChar, hc, ih h.2]

theorem stripDataUri_not_mem (l : List Char) (h : ',' ∉ l) :
    stripDataUri l = l := by
  simp [stripDataUri, splitOnChar_not_mem ',' l h]

theorem stripDataUri_concat (l r : List Char) (hl : ',' ∉ l) (hr : ',' ∉ r) :
    stripDataUri (l ++ ',' :: r) = r := by
  simp [stripDataUri, splitOnChar_append ',' l r hl, splitOnChar_not_mem ',' r hr]

/-- The selection loop is a first-match search, in manifest order, over
the stripped filenames. -/
theorem selectFilename_eq_find (l : List String) :
    selectFilename l = (l.map trimPy).find? acceptName := by
  induction l with
  | nil => rfl
  | cons fname rest ih =>
    rw [List.map_cons]
    by_cases h1 : trimPy fname = ""
    · have ha : acceptName (trimPy fname) = false := by simp [acceptName, h1]
      rw [List.find?_cons_of_neg _ (by simp [ha]), ← ih]
      simp only [selectFilename]
      rw [if_pos h1]
    · by_cases h2 : isMapName (trimPy fname) = true
      · have ha : acceptName (trimPy fname) = false := by simp [acceptName, h2]
        rw [List.find?_cons_of_neg _ (by simp [ha]), ← ih]
        simp only [selectFilename]
        rw [if_neg h1, if_pos h2]
      · by_cases h3 : isImageExt (trimPy fname) = true
        · have ha : acceptName (trimPy fname) = true := by
            simp [acceptName, h1, h2, h3]
          rw [List.find?_cons_of_pos _ ha]
          simp only [selectFilename]
          rw [if_neg h1, if_neg h2, if_pos h3]
        · have ha : acceptName (trimPy fname) = false := by
            simp [acceptName, h3]
          rw [List.find?_cons_of_neg _ (by simp [ha]), ← ih]
          simp only [selectFilename]
          rw [if_neg h1, if_neg h2, if_neg h3]

/-- The download phase issues exactly one network call: the download
POST with the headers and payload it was given. -/
theorem downloadPhase_trace (env : Env) (hd : Headers) (p2 : Payload) :
    (downloadPhase env hd p2).2 = [.downloadPost hd p2] := by
  unfold downloadPhase
  repeat' split
  all_goals rfl

/-- Any bytes the download phase produces passed the PIL check. -/
theorem downloadPhase_fst (env : Env) (hd : Headers) (p2 : Payload) :
    (downloadPhase env hd p2).1 = none ∨
      ∃ b, (downloadPhase env hd p2).1 = some b ∧ env.pilVerify b = true := by
  unfold downloadPhase validateImage
  repeat' split
  all_goals simp_all

/-- Any bytes the listing phase produces passed the PIL check. -/
theorem listingPhase_fst (env : Env) (hd : Headers) (p : Payload) :
    (listingPhase env hd p).1 = none ∨
      ∃ b, (listingPhase env hd p).1 = some b ∧ env.pilVerify b = true := by
  unfold listingPhase
  repeat' split
  all_goals
    first
      | exact Or.inl rfl
      | exact downloadPhase_fst _ _ _

/-- Every call of the listing phase is a listing or download POST with
the given headers and the given case id. -/
theorem listingPhase_calls (env : Env) (hd : Headers) (p : Payload) (c : NetCall)
    (hc : c ∈ (listingPhase env hd p).2) :
    (∃ q, c = .listPost hd q ∧ q.caseid = p.caseid) ∨
      ∃ q, c = .downloadPost hd q ∧ q.caseid = p.caseid := by
  unfold listingPhase at hc
  repeat' split at hc
  all_goals
    first
      | (simp only [List.mem_cons, List.not_mem_nil, or_false] at hc
         first
           | exact Or.inl ⟨_, hc, rfl⟩
           | (rcases hc with rfl | hc
              · exact Or.inl ⟨_, rfl, rfl⟩
              · rw [downloadPhase_trace] at hc
                simp only [List.mem_cons, List.not_mem_nil, or_false] at hc
                exact Or.inr ⟨_, hc, rfl⟩))

/-- The listing phase always begins by issuing the listing POST. -/
theorem listingPhase_trace (env : Env) (hd : Headers) (p : Payload) :
    ∃ t, (listingPhase env hd p).2 = .listPost hd p :: t := by
  unfold listingPhase
  repeat' split
  all_goals exact ⟨_, rfl⟩

/-- Any bytes the core resolution produces passed the PIL check. -/
theorem resolveCore_fst (env : Env) (u caseId : String) :
    (resolveCore env u caseId).1 = none ∨
      ∃ b, (resolveCore env u caseId).1 = some b ∧ env.pilVerify b = true := by
  unfold resolveCore
  repeat' split
  all_goals
    first
      | exact Or.inl rfl
      | exact listingPhase_fst _ _ _

/-- Every call of the core resolution is the page GET, the handshake
GET, or a listing/download POST carrying the given case id. -/
theorem resolveCore_calls (env : Env) (u caseId : String) (c : NetCall)
    (hc : c ∈ (resolveCore env u caseId).2) :
    c = .pageGet u ∨ (∃ hs, c = .handshakeGet hs) ∨
      ∃ hd q, (c = .listPost hd q ∨ c = .downloadPost hd q) ∧ q.caseid = caseId := by
  unfold resolveCore at hc
  repeat' split at hc
  all_goals
    simp only [List.mem_cons, List.not_mem_nil, or_false] at hc
  all_goals
    first
      | exact Or.inl hc
      | (rcases hc with rfl | rfl | hc
         · exact Or.inl rfl
         · exact Or.inr (Or.inl ⟨_, rfl⟩)
         · rcases listingPhase_calls _ _ _ _ hc with ⟨q, rfl, hq⟩ | ⟨q, rfl, hq⟩
           · exact Or.inr (Or.inr ⟨_, q, Or.inl rfl, hq⟩)
           · exact Or.inr (Or.inr ⟨_, q, Or.inr rfl, hq⟩))

/-- Any bytes the resolver returns passed the PIL check. -/
theorem fetch_fst (env : Env) (v : PyValue) :
    (fetch_verint_image_v3 env v).1 = none ∨
      ∃ b, (fetch_verint_image_v3 env v).1 = some b ∧ env.pilVerify b = true := by
  unfold fetch_verint_image_v3
  repeat' split
  all_goals
    first
      | exact Or.inl rfl
      | exact resolveCore_fst _ _ _

/-- A live cache entry is returned unchanged with no network calls. -/
theorem cachedFetch_hit (env : Env) (ttl : Nat) (entries : List CacheEntry)
    (now : Nat) (v : PyValue) (r : Option Bytes)
    (h : cacheLookup entries now ttl v = some r) :
    cachedFetch env ttl entries now v = ((r, []), entries) := by
  simp [cachedFetch, h]

/- ------------------------------------------------------------------
Claim theorems.
------------------------------------------------------------------ -/

/-- Claim C1, counterexample: at a concrete wrapper URL whose page
fetch raises, the resolver's failure outcome is Python's bare `None`
(`Option.none`): the result carries no diagnostic reason string, so a
failure path does not terminate in a value tagged with one of the seven
reason strings the claim lists (none of those strings occurs anywhere in
the code). -/
theorem c1_counterexample_failure_is_bare_none :
    (fetch_verint_image_v3 envFail (PyValue.str "https://x.verint.com/p?caseid=5")).1 = none
    ∧ ((fetch_verint_image_v3 envFail (PyValue.str "https://x.verint.com/p?caseid=5")).1).isSome
        = false := by
  decide

/-- Claim C1 (amended): for every environment and every input the
resolver returns normally — no exception of any network call or library
primitive propagates — and every failure path returns `None` (with no
diagnostic reason attached); the only non-`None` results are image
bytes that passed validation. -/
theorem c1_resolver_never_raises (env : Env) (v : PyValue) :
    (fetch_verint_image_v3 env v).1 = none ∨
      ∃ b, (fetch_verint_image_v3 env v).1 = some b ∧ env.pilVerify b = true :=
  fetch_fst env v

/-- Claim C2, counterexample: on the manifest `["only_map.jpg"]` the
selection yields no candidate — it does not fall back to the single
most recent filename as the claim states. -/
theorem c2_counterexample_no_fallback :
    selectFilename ["only_map.jpg"] = none
    ∧ selectFilename ["only_map.jpg"] ≠ some "only_map.jpg" := by
  decide

/-- Claim C2 (amended): the selector has no permissive fallback: for
every manifest — empty or not — in which no stripped filename passes
the strict filter, selection yields no candidate. -/
theorem c2_strict_filter_only (files : List String)
    (h : ∀ f ∈ files, acceptName (trimPy f) = false) :
    selectFilename files = none := by
  rw [selectFilename_eq_find]
  apply List.find?_eq_none.mpr
  intro x hx
  rcases List.mem_map.mp hx with ⟨f, hf, rfl⟩
  simp [h f hf]

/-- Witness for C2's amended theorem at a concrete manifest with a map
thumbnail and a non-image file. -/
theorem c2_witness : selectFilename ["only_map.jpg", "notes.txt"] = none :=
  c2_strict_filter_only ["only_map.jpg", "notes.txt"] (by decide)

/-- Claim C3, counterexample: the loop walks the manifest from the
beginning, not from the end: on `["b.jpg", "d.jpg"]` the code selects
the first entry `"b.jpg"`, while a most-recent-first walk (the
specification's wording, `selectFilenameSpec`) selects `"d.jpg"`. -/
theorem c3_counterexample_walk_direction :
    selectFilename ["b.jpg", "d.jpg"] = some "b.jpg"
    ∧ selectFilenameSpec ["b.jpg", "d.jpg"] = some "d.jpg"
    ∧ selectFilename ["b.jpg", "d.jpg"] ≠ selectFilenameSpec ["b.jpg", "d.jpg"] := by
  decide

/-- Claim C3 (amended): the selector walks the manifest from the
beginning in list order, skipping names that (case-insensitively) end
in `m.jpg`, `_map.jpg` or `_map.jpeg` and names that strip to empty,
and accepts the first remaining name with extension jpg/jpeg/png — a
first-match search over the stripped filenames; on the claim's example
`["a_map.jpg", "b.jpg", "c_M.jpg"]` it yields `"b.jpg"`. -/
theorem c3_selector_forward_first_match :
    (∀ files : List String,
        selectFilename files = (files.map trimPy).find? acceptName)
    ∧ selectFilename ["a_map.jpg", "b.jpg", "c_M.jpg"] = some "b.jpg" :=
  ⟨selectFilename_eq_find, by decide⟩

/-- Claim C4: for every string that does not contain
`"verintcloudservices"`, the display pipeline renders the original
value unchanged and performs no network call — non-wrapper URLs bypass
the resolver entirely. -/
theorem c4_non_wrapper_passthrough (env : Env) (s : String)
    (h : containsPy s "verintcloudservices" = false) :
    displayImage env (PyValue.str s) = (DisplayValue.url s, []) := by
  simp [displayImage, h]

/-- Witness for C4 at a concrete public image URL. -/
theorem c4_witness :
    displayImage envOk (PyValue.str "https://pbs.twimg.com/a.jpg")
      = (DisplayValue.url "https://pbs.twimg.com/a.jpg", []) :=
  c4_non_wrapper_passthrough envOk "https://pbs.twimg.com/a.jpg" (by decide)

/-- Claim C5: the Image Validator never lets bytes that fail the image
check reach the caller as resolved (they become `none`), any bytes it
does return are the original bytes unchanged with the check passed, and
at the resolver level every returned byte string passed the PIL check. -/
theorem c5_validator_sound (verify : Bytes → Bool) (b : Bytes)
    (env : Env) (v : PyValue) :
    (verify b = false → validateImage verify b = none)
    ∧ (∀ r, validateImage verify b = some r → r = b ∧ verify b = true)
    ∧ (∀ bs, (fetch_verint_image_v3 env v).1 = some bs →
        env.pilVerify bs = true) := by
  refine ⟨?_, ?_, ?_⟩
  · intro hv
    simp [validateImage, hv]
  · intro r hr
    unfold validateImage at hr
    split at hr
    · exact ⟨(Option.some.inj hr).symm, by assumption⟩
    · exact absurd hr (by simp)
  · intro bs hbs
    rcases fetch_fst env v with hnone | ⟨b2, hb2, hv2⟩
    · rw [hbs] at hnone
      cases hnone
    · rw [hbs] at hb2
      obtain rfl := Option.some.inj hb2
      exact hv2

/-- Witness for C5: corrupt bytes (failing the check) are rejected. -/
theorem c5_witness :
    validateImage (fun _ => false) [1, 2, 3] = none :=
  (c5_validator_sound (fun _ => false) [1, 2, 3] envOk PyValue.other).1 rfl

/-- Claim C6: in the Session Handshake Manager, (1) a missing
form-reference token is fatal; (2) a missing CSRF token is tolerated
and the header simply omitted downstream; (3) a failed authorization
exchange leaves the headers credential-free without aborting, and
(4) resolution then still proceeds through the handshake GET to the
listing phase; (5) a successful exchange puts the credential in the
headers used downstream, and (6)-(7) every subsequent call (the listing
POST, always issued, and any download POST) carries exactly those
headers. -/
theorem c6_handshake_contract :
    (∀ (env : Env) (u caseId : String) (pg : Page),
        env.page u = .ok pg → pg.status = 200 →
        env.formrefSearch pg.text = none →
        resolveCore env u caseId = (none, [.pageGet u]))
    ∧ (∀ (env : Env) (pg : Page), env.csrfSearch pg.text = none →
        (sessionHeaders env pg).xCsrfToken = none
        ∧ (finalHeaders env pg).xCsrfToken = none)
    ∧ (∀ (env : Env) (pg : Page),
        env.handshake (sessionHeaders env pg) = .error () →
        finalHeaders env pg
          = { sessionHeaders env pg with contentType := some "application/json" })
    ∧ (∀ (env : Env) (u caseId : String) (pg : Page) (formref : String),
        env.page u = .ok pg → pg.status = 200 →
        env.formrefSearch pg.text = some formref →
        resolveCore env u caseId
          = ((listingPhase env (finalHeaders env pg)
                { caseid := caseId, formref := formref, filename := none }).1,
             .pageGet u :: .handshakeGet (sessionHeaders env pg) ::
               (listingPhase env (finalHeaders env pg)
                 { caseid := caseId, formref := formref, filename := none }).2))
    ∧ (∀ (env : Env) (pg : Page) (a : String),
        env.handshake (sessionHeaders env pg) = .ok (some a) →
        (finalHeaders env pg).authorization = some a)
    ∧ (∀ (env : Env) (hd : Headers) (p : Payload) (c : NetCall),
        c ∈ (listingPhase env hd p).2 →
        (∃ q, c = .listPost hd q) ∨ ∃ q, c = .downloadPost hd q)
    ∧ (∀ (env : Env) (hd : Headers) (p : Payload),
        ∃ t, (listingPhase env hd p).2 = .listPost hd p :: t) := by
  refine ⟨?_, ?_, ?_, ?_, ?_, ?_, ?_⟩
  · intro env u caseId pg hp hs hf
    simp [resolveCore, hp, hs, hf]
  · intro env pg h
    constructor
    · simp [sessionHeaders, h]
    · unfold finalHeaders
      split <;> simp [sessionHeaders, h]
  · intro env pg h
    simp [finalHeaders, h]
  · intro env u caseId pg formref hp hs hf
    simp [resolveCore, hp, hs, hf]
  · intro env pg a h
    simp [finalHeaders, h]
  · intro env hd p c hc
    rcases listingPhase_calls env hd p c hc with ⟨q, rfl, _⟩ | ⟨q, rfl, _⟩
    · exact Or.inl ⟨q, rfl⟩
    · exact Or.inr ⟨q, rfl⟩
  · exact listingPhase_trace

/-- Witness for C6: the fatal missing formref, the omitted CSRF header
and the captured credential, at concrete environments. -/
theorem c6_witness :
    resolveCore envNoFormref "https://u" "5" = (none, [.pageGet "https://u"])
    ∧ (sessionHeaders envOk pageOk).xCsrfToken = none
    ∧ (finalHeaders envOk pageOk).authorization = some "AUTH" :=
  ⟨c6_handshake_contract.1 envNoFormref "https://u" "5" pageOk rfl rfl rfl,
   (c6_handshake_contract.2.1 envOk pageOk rfl).1,
   c6_handshake_contract.2.2.2.2.1 envOk pageOk "AUTH" rfl⟩

/-- Claim C7: a base64 payload prefixed with a data-URI scheme marker
`<mime>;base64,` strips to exactly the bare payload, a bare payload is
left unchanged, and therefore the two decode to the same bytes under
any base64 decoder — the marker is stripped before decoding.  (Base64
alphabets contain no comma, whence the comma-freeness hypotheses.) -/
theorem c7_data_uri_marker (mime payload : String)
    (hm : ',' ∉ mime.data) (hp : ',' ∉ payload.data) :
    stripDataUriStr (mime ++ ";base64," ++ payload) = payload
    ∧ stripDataUriStr payload = payload
    ∧ ∀ env : Env,
        env.b64decode (stripDataUriStr (mime ++ ";base64," ++ payload))
          = env.b64decode (stripDataUriStr payload) := by
  have hpre : ',' ∉ mime.data ++ (";base64" : String).data := by
    simp only [List.mem_append, not_or]
    exact ⟨hm, by decide⟩
  have hdata : (mime ++ ";base64," ++ payload).data
      = (mime.data ++ (";base64" : String).data) ++ ',' :: payload.data := by
    rw [strData_append, strData_append]
    have hsplit : (";base64," : String).data = (";base64" : String).data ++ [','] := by
      decide
    rw [hsplit]
    simp [List.append_assoc]
  have h1 : stripDataUriStr (mime ++ ";base64," ++ payload) = payload := by
    unfold stripDataUriStr
    rw [hdata, stripDataUri_concat _ _ hpre hp]
  have h2 : stripDataUriStr payload = payload := by
    unfold stripDataUriStr
    rw [stripDataUri_not_mem _ hp]
  exact ⟨h1, h2, fun env => by rw [h1, h2]⟩

/-- Witness for C7 at the concrete marker `image/jpeg;base64,` and
payload `QUJD`. -/
theorem c7_witness :
    stripDataUriStr ("image/jpeg" ++ ";base64," ++ "QUJD") = "QUJD" :=
  (c7_data_uri_marker "image/jpeg" "QUJD" (by decide) (by decide)).1

/-- Claim C8: a live cached result — success or failure alike, since
`none` outcomes are stored too — is returned as-is with zero network
calls; and after any resolution at time `now`, a repeated call within
the TTL returns exactly the first call's result with zero network
calls. -/
theorem c8_cache_within_ttl :
    (∀ (env : Env) (ttl : Nat) (entries : List CacheEntry) (now : Nat)
        (v : PyValue) (r : Option Bytes),
        cacheLookup entries now ttl v = some r →
        cachedFetch env ttl entries now v = ((r, []), entries))
    ∧ (∀ (env : Env) (ttl : Nat) (entries : List CacheEntry) (now tNext : Nat)
        (v : PyValue),
        cacheLookup entries now ttl v = none →
        tNext < now + ttl →
        cachedFetch env ttl (cachedFetch env ttl entries now v).2 tNext v
          = (((fetch_verint_image_v3 env v).1, []),
             (cachedFetch env ttl entries now v).2)) := by
  constructor
  · intro env ttl entries now v r h
    exact cachedFetch_hit env ttl entries now v r h
  · intro env ttl entries now tNext v hmiss hlt
    have hstate : (cachedFetch env ttl entries now v).2
        = { key := v, result := (fetch_verint_image_v3 env v).1, storedAt := now } ::
            entries.filter fun e => !(decide (e.key = v)) := by
      simp [cachedFetch, hmiss]
    have hlook : cacheLookup ((cachedFetch env ttl entries now v).2) tNext ttl v
        = some ((fetch_verint_image_v3 env v).1) := by
      rw [hstate]
      unfold cacheLookup
      rw [List.find?_cons_of_pos _ (by simp)]
      simp [hlt]
    exact cachedFetch_hit env ttl _ tNext v _ hlook

/-- Witness for C8: a miss followed by a repeat call within the TTL
returns the stored (here negative) result with no network calls. -/
theorem c8_witness :
    cachedFetch envFail 3600 ((cachedFetch envFail 3600 [] 0 PyValue.other).2)
        10 PyValue.other
      = (((fetch_verint_image_v3 envFail PyValue.other).1, []),
         (cachedFetch envFail 3600 [] 0 PyValue.other).2) :=
  c8_cache_within_ttl.2 envFail 3600 [] 0 10 PyValue.other rfl (by decide)

/-- Claim C9: a non-string input, or a string without the substring
`"verint"`, yields `None` with no network call; and the classification
is a substring test on the whole string, not a host check — a URL whose
host is `example.com` but whose query mentions `verint` does reach the
page fetch. -/
theorem c9_guard_no_network (env : Env) (s : String)
    (h : containsPy s "verint" = false) :
    fetch_verint_image_v3 env PyValue.other = (none, [])
    ∧ fetch_verint_image_v3 env (PyValue.str s) = (none, [])
    ∧ (env.page "https://example.com/p?caseid=7&q=verint" = .error () →
        fetch_verint_image_v3 env (PyValue.str "https://example.com/p?caseid=7&q=verint")
          = (none, [.pageGet "https://example.com/p?caseid=7&q=verint"])) := by
  refine ⟨rfl, by simp [fetch_verint_image_v3, h], ?_⟩
  intro hp
  have h1 : containsPy "https://example.com/p?caseid=7&q=verint" "verint" = true := by
    decide
  have h2 : getCaseId "https://example.com/p?caseid=7&q=verint" = some "7" := by
    decide
  simp [fetch_verint_image_v3, h1, h2, resolveCore, hp]

/-- Witness for C9 at a concrete non-wrapper URL and failing network. -/
theorem c9_witness :
    fetch_verint_image_v3 envFail (PyValue.str "https://pbs.twimg.com/a.jpg")
      = (none, []) :=
  (c9_guard_no_network envFail "https://pbs.twimg.com/a.jpg" (by decide)).2.1

/-- Claim C10: a wrapper URL with no (or an empty) `caseid` query value
returns `None` for every environment with no network call — the check
precedes the page fetch; when `caseid` appears several times the first
value is the one extracted, and it is the case id carried by every
listing/download payload of the resolution. -/
theorem c10_caseid_first_and_guard :
    (∀ (env : Env) (u : String), getCaseId u = none →
        fetch_verint_image_v3 env (PyValue.str u) = (none, []))
    ∧ (∀ (u v : String) (l : List String),
        caseidValues u = v :: l → ¬ v = "" → getCaseId u = some v)
    ∧ getCaseId "https://x.verint.com/p?caseid=5&caseid=7" = some "5"
    ∧ getCaseId "https://x.verint.com/p?caseid=" = none
    ∧ (∀ (env : Env) (u caseId : String) (c : NetCall),
        getCaseId u = some caseId →
        c ∈ (fetch_verint_image_v3 env (PyValue.str u)).2 →
        payloadCaseId c = some caseId ∨ payloadCaseId c = none) := by
  refine ⟨?_, ?_, by decide, by decide, ?_⟩
  · intro env u h
    simp only [fetch_verint_image_v3]
    split
    · rw [h]
    · rfl
  · intro u v l hv hne
    unfold getCaseId
    rw [hv]
    simp [hne]
  · intro env u caseId c h hc
    simp only [fetch_verint_image_v3] at hc
    split at hc
    · rw [h] at hc
      rcases resolveCore_calls env u caseId c hc with rfl | ⟨hs, rfl⟩ | ⟨hd, q, hq, hcid⟩
      · exact Or.inr rfl
      · exact Or.inr rfl
      · rcases hq with rfl | rfl
        · exact Or.inl (by simp [payloadCaseId, hcid])
        · exact Or.inl (by simp [payloadCaseId, hcid])
    · cases hc

/-- Witness for C10: a wrapper URL without a case id yields `None` with
no network call even when every network call would fail. -/
theorem c10_witness :
    fetch_verint_image_v3 envFail (PyValue.str "https://x.verint.com/p?nothing=1")
      = (none, []) :=
  c10_caseid_first_and_guard.1 envFail "https://x.verint.com/p?nothing=1" (by decide)

end FairTrees
